import Mathlib

/-!
# Mailgun bulk e-mail front-end: request orchestration

A shallow embedding of the request handlers of `src/routes/mailgun.js` (the
modular router) and of the attachment and payload code of `server.js` (the
stand-alone server).

Conventions of the embedding.

* The hosted mail provider, the `html-to-text` converter, `path` and the file
  system are external collaborators.  They are gathered in `Env` and `Client`
  and every theorem quantifies over them.  Provider-shaped JSON (results and
  error payloads) is an arbitrary type `V`.
* A handler is a function on a `World`: the ordered log of everything the
  handler asked the response object to send or render, the ordered log of the
  provider calls it issued, and the rejections of promises that nobody awaits.
  The first entry of `World.responses` that a handler adds is what the HTTP
  client receives; Express refuses any later one, and the log keeps it so that
  a second attempt stays visible.
* A JavaScript exception is the `Except.error` component of a handler result.
  For an `async` function it is the rejection of the promise it returns.
* An `async` function that is called without `await` is split at its first
  `await`: the part before it runs at the call, the part after it runs once the
  caller has finished its own synchronous code.
-/

namespace Mailgun

/-! ## Values, responses and the world -/

/-- Exceptions raised while a handler runs. -/
inductive JSError (V : Type) where
  /-- A `TypeError` of the JavaScript runtime. -/
  | typeError (msg : String)
  /-- A `ReferenceError` of the JavaScript runtime. -/
  | referenceError (msg : String)
  /-- An error value raised by an external collaborator. -/
  | thrown (e : V)
  deriving DecidableEq, Repr

/-- Property values that occur in the JSON bodies the handlers send. -/
inductive Atom (V : Type) where
  /-- The value `undefined`. -/
  | undefined
  /-- A string literal. -/
  | str (s : String)
  /-- A value obtained from the provider: a result or an error payload. -/
  | provider (v : V)
  /-- The object literal without properties. -/
  | emptyObj
  deriving DecidableEq, Repr

/-- The argument of `res.send`. -/
inductive Body (V : Type) where
  /-- An object literal, as the list of its properties in source order. -/
  | obj (fields : List (String × Atom V))
  /-- A value passed to `res.send` as it is. -/
  | raw (v : V)
  deriving DecidableEq, Repr

/-- The fields of `req.body` that the handlers read. -/
structure ReqBody (V : Type) where
  api_key : String
  apiKey : String
  domain : String
  name : String
  description : String
  accessLevel : String
  address : String
  members : V
  mailing_list : String
  mailing_list_address : String
  from_email : String
  subject : String
  message : String
  deriving DecidableEq, Repr

/-- One element of `mailing_list`: the object `name, email` built per list item. -/
structure Entry where
  name : String
  email : String
  deriving DecidableEq, Repr

/-- The value `getMailingLists` returns. -/
structure MailingLists where
  mailing_list : List Entry
  mailing_options : String
  deriving DecidableEq, Repr

/-- The locals handed to the `message` view. -/
structure ViewModel (V : Type) where
  apiKey : String
  domain : String
  req_data : ReqBody V
  mailing_list : List Entry
  mailing_options : String
  msg : String
  err : Bool
  deriving DecidableEq, Repr

/-- The second argument of `res.render`. -/
inductive Locals (V : Type) where
  /-- The locals of the `message` view. -/
  | viewModel (vm : ViewModel V)
  /-- The locals of the `mailgun` view: the single property `error`. -/
  | errorOnly (error : Option String)
  deriving DecidableEq, Repr

/-- One thing a handler asked the response object to deliver. -/
inductive Response (V : Type) where
  /-- The call `res.status(status).send(body)`. -/
  | send (status : Nat) (body : Body V)
  /-- The call `res.render(view, locals)`. -/
  | render (view : String) (locals : Locals V)
  deriving DecidableEq, Repr

/-- Raw file content. -/
abbrev Bytes := List Nat

/-- An uploaded file as `express-fileupload` presents it. -/
structure Upload where
  name : String
  data : Bytes
  mimetype : String
  deriving DecidableEq, Repr

/-- The property `req.files.file`. -/
inductive FileField where
  /-- No file was uploaded under the field `file`. -/
  | absent
  /-- A single uploaded file: an object, not an array. -/
  | single (f : Upload)
  /-- Several uploaded files: an array, in upload order. -/
  | many (fs : List Upload)
  deriving DecidableEq, Repr

/-- An attachment entry of the modular router: `filename` and `data`. -/
structure FileAttachment where
  filename : String
  data : Bytes
  deriving DecidableEq, Repr

/-- An attachment entry of the stand-alone server: the argument of `new mailgun.Attachment`. -/
structure Attachment where
  data : Bytes
  contentType : String
  filename : String
  deriving DecidableEq, Repr

/-- The message object handed to the provider send call.  The type `A` is the
attachment entry type; `attachment` is `none` while the property is not set.
The properties `from` and `to` are spelled `from_` and `to_`. -/
structure EmailData (A : Type) where
  from_ : String
  to_ : String
  subject : String
  text : String
  html : String
  attachment : Option (List A)
  deriving DecidableEq, Repr

/-- One item of a provider list response. -/
structure ListItem where
  name : String
  address : String
  deriving DecidableEq, Repr

/-- The object `client.lists.list()` resolves to.  A property that is missing is `none`. -/
structure ListResponse where
  items : Option (List ListItem)
  message : Option String
  deriving DecidableEq, Repr

/-- The argument of `client.lists.create`. -/
structure ListDescriptor where
  address : String
  name : String
  description : String
  access_level : String
  deriving DecidableEq, Repr

/-- The second argument of `client.lists.members.createMembers`. -/
structure CreateMembers (V : Type) where
  members : V
  upsert : String
  deriving DecidableEq, Repr

/-- A call issued to the provider client. -/
inductive Call (V : Type) where
  | listsCreate (d : ListDescriptor)
  | listsList
  | listMembers (address : String)
  | createMembers (address : String) (payload : CreateMembers V)
  | listsDestroy (address : String)
  | messagesCreate (domain : String) (data : EmailData FileAttachment)
  deriving DecidableEq, Repr

/-- The provider client: each operation either resolves to a value or rejects
with the provider error payload. -/
structure Client (V : Type) where
  listsCreate : ListDescriptor → Except V V
  listsList : Except V ListResponse
  listMembers : String → Except V V
  createMembers : String → CreateMembers V → Except V V
  listsDestroy : String → Except V V
  messagesCreate : String → EmailData FileAttachment → Except V V

/-- The external collaborators of the handlers. -/
structure Env (V : Type) where
  /-- The helper of `src/util/initializeClient`, which builds a client from an API key. -/
  initializeMailgunClient : String → Except (JSError V) (Client V)
  /-- The function `convert` of `html-to-text`; the number is the `wordwrap` option. -/
  convert : String → Nat → String
  /-- The function `path.join` on two segments. -/
  pathJoin : String → String → String
  /-- The function `path.basename`. -/
  basename : String → String
  /-- The error `attachment.mv(uploadPath, callback)` passes to its callback, if any. -/
  mv : Upload → String → Option V
  /-- The outcome of `fsPromises.readFile(uploadPath)`. -/
  readFile : String → Except V Bytes

/-- The request: the parsed body and `req.files`, which is `none` when
`express-fileupload` found no upload. -/
structure Request (V : Type) where
  body : ReqBody V
  files : Option FileField
  deriving DecidableEq, Repr

/-- The observable effects of a handler, each log in order of occurrence. -/
structure World (V : Type) where
  /-- What the handler asked the response object to send or render. -/
  responses : List (Response V)
  /-- The provider calls the handler issued. -/
  calls : List (Call V)
  /-- Exceptions that reached no handler: rejections of promises nobody awaits
  and exceptions raised inside callbacks. -/
  unhandled : List (JSError V)
  deriving DecidableEq, Repr

/-- The world before a handler has done anything. -/
def World.empty {V : Type} : World V :=
  { responses := [], calls := [], unhandled := [] }

/-- Effect of `res.status(status).send(body)`.  A call on a response that has
been answered already is logged as well; under Express it raises instead. -/
def World.send {V : Type} (w : World V) (status : Nat) (body : Body V) : World V :=
  { w with responses := w.responses ++ [Response.send status body] }

/-- Effect of `res.render(view, locals)`. -/
def World.render {V : Type} (w : World V) (view : String) (locals : Locals V) : World V :=
  { w with responses := w.responses ++ [Response.render view locals] }

/-- Effect of issuing a provider call. -/
def World.call {V : Type} (w : World V) (c : Call V) : World V :=
  { w with calls := w.calls ++ [c] }

/-- Effect of an exception that nothing catches. -/
def World.reject {V : Type} (w : World V) (e : JSError V) : World V :=
  { w with unhandled := w.unhandled ++ [e] }

/-- The response the HTTP client receives: the first one the handler produced. -/
def World.delivered {V : Type} (w : World V) : Option (Response V) :=
  w.responses.head?

/-! ## `getMailingLists` (mailgun.js, lines 89-117) -/

/-- The template literal of line 113 for one list item. -/
def optionMarkup (item : ListItem) : String :=
  "<option value=\"" ++ item.address ++ "\">" ++ item.address ++ "</option>"

/-- The `for ... of` loop of lines 111-114 over the items, from the current
values of `mailingList` and `mailingOptions`. -/
def mailingListLoop : List ListItem → List Entry → String → List Entry × String
  | [], mailingList, mailingOptions => (mailingList, mailingOptions)
  | item :: rest, mailingList, mailingOptions =>
    mailingListLoop rest
      (mailingList ++ [{ name := item.name, email := item.address }])
      (mailingOptions ++ optionMarkup item)

/-- The function `getMailingLists`.  A rejection of `lists.list` is answered
with status 400 and `list` stays the empty object; a `list` without `items`
renders the `mailgun` view; and then, in every case, the loop iterates
`list.items`, which raises a `TypeError` when that property is missing. -/
def getMailingLists {V : Type} (env : Env V) (req : Request V) (w : World V) :
    Except (JSError V) MailingLists × World V :=
  match env.initializeMailgunClient req.body.api_key with
  | .error e => (.error e, w)
  | .ok client =>
    let w1 := w.call Call.listsList
    let listAndWorld : ListResponse × World V :=
      match client.listsList with
      | .ok list => (list, w1)
      | .error error =>
        ({ items := none, message := none },
          w1.send 400 (Body.obj [("error", Atom.provider error)]))
    let list := listAndWorld.1
    let w2 := listAndWorld.2
    let w3 := if list.items.isNone then w2.render "mailgun" (Locals.errorOnly list.message) else w2
    match list.items with
    | none => (.error (JSError.typeError "list.items is not iterable"), w3)
    | some items =>
      let r := mailingListLoop items [] ""
      (.ok { mailing_list := r.1, mailing_options := r.2 }, w3)

/-! ## `getMembers`, `createMailingList`, `addMembers` (mailgun.js, lines 25-87) -/

/-- The function `createMailingList`: the provider result goes out in a
`Success` envelope with status 200, a provider error goes out as it is with
status 400. -/
def createMailingList {V : Type} (env : Env V) (req : Request V) (w : World V) :
    Except (JSError V) Unit × World V :=
  match env.initializeMailgunClient req.body.api_key with
  | .error e => (.error e, w)
  | .ok client =>
    let listAddress := req.body.name ++ "@" ++ req.body.domain
    let d : ListDescriptor :=
      { address := listAddress, name := req.body.name,
        description := req.body.description, access_level := req.body.accessLevel }
    let w1 := w.call (Call.listsCreate d)
    match client.listsCreate d with
    | .ok newList =>
      (.ok (), w1.send 200
        (Body.obj [("status", Atom.str "Success"), ("data", Atom.provider newList)]))
    | .error error => (.ok (), w1.send 400 (Body.raw error))

/-- The function `getMembers`: it returns the members, or answers a provider
error with status 400 and returns `undefined`. -/
def getMembers {V : Type} (env : Env V) (req : Request V) (w : World V) :
    Except (JSError V) (Atom V) × World V :=
  match env.initializeMailgunClient req.body.api_key with
  | .error e => (.error e, w)
  | .ok client =>
    let w1 := w.call (Call.listMembers req.body.mailing_list)
    match client.listMembers req.body.mailing_list with
    | .ok members => (.ok (Atom.provider members), w1)
    | .error error => (.ok Atom.undefined, w1.send 400 (Body.obj [("error", Atom.provider error)]))

/-- The second argument `addMembers` passes to `createMembers` (lines 79-80). -/
def addMembersPayload {V : Type} (req : Request V) : CreateMembers V :=
  { members := req.body.members, upsert := "yes" }

/-- The part of `addMembers` before its `await`: the client is built and the
`createMembers` request is issued. -/
def addMembersIssue {V : Type} (env : Env V) (req : Request V) (w : World V) :
    Except (JSError V) (Client V) × World V :=
  match env.initializeMailgunClient req.body.api_key with
  | .error e => (.error e, w)
  | .ok client => (.ok client, w.call (Call.createMembers req.body.address (addMembersPayload req)))

/-- The part of `addMembers` after its `await`: the members are returned, or a
provider error is answered with status 400 in an `Error` envelope. -/
def addMembersSettle {V : Type} (client : Client V) (req : Request V) (w : World V) :
    Except (JSError V) (Atom V) × World V :=
  match client.createMembers req.body.address (addMembersPayload req) with
  | .ok members => (.ok (Atom.provider members), w)
  | .error error =>
    (.ok Atom.undefined,
      w.send 400 (Body.obj [("status", Atom.str "Error"), ("error", Atom.provider error)]))

/-- The function `addMembers` run to completion, as a caller that awaits it sees it. -/
def addMembers {V : Type} (env : Env V) (req : Request V) (w : World V) :
    Except (JSError V) (Atom V) × World V :=
  match addMembersIssue env req w with
  | (.error e, w1) => (.error e, w1)
  | (.ok client, w1) => addMembersSettle client req w1

/-! ## `addRecipientVariable` (mailgun.js, lines 60-73) -/

/-- A list member: its address and its other properties by name. -/
structure Member where
  address : String
  fields : List (String × String)
  deriving DecidableEq, Repr

/-- The variables of one recipient; a stored `none` is a property set to `undefined`. -/
abbrev Variables := List (String × Option String)

/-- The object `recipientVariables`: the variables of each recipient, keyed by address. -/
abbrev RecipientVariables := List (String × Variables)

/-- Property read on a JavaScript array for a key that is not an index: only
`length` is defined, every other key yields `undefined`, here `none`. -/
def arrayProp {α : Type} (xs : List α) (key : String) : Option Nat :=
  if key = "length" then some xs.length else none

/-- The comparison `i < bound` where `bound` may be `undefined`: `undefined`
converts to `NaN` and every comparison with `NaN` is false. -/
def jsLt (i : Nat) (bound : Option Nat) : Bool :=
  match bound with
  | some n => decide (i < n)
  | none => false

/-- Assignment `obj[key] = value` on an association list: an existing key is
overwritten in place, a new key is appended. -/
def setKey {β : Type} (key : String) (value : β) : List (String × β) → List (String × β)
  | [] => [(key, value)]
  | (k, v) :: rest => if k = key then (k, value) :: rest else (k, v) :: setKey key value rest

/-- The loop body of lines 65-71 for the member at index `i`.  The assignment
raises a `TypeError` when `members[i]` or `recipientVariables[address]` is
`undefined`; the `catch` turns that into `continue`.  The value stored is the
property literally named `field` of the member. -/
def addRecipientVariableStep (recipientVariables : RecipientVariables) (field : String)
    (members : List Member) (i : Nat) : RecipientVariables :=
  match members[i]? with
  | none => recipientVariables
  | some currentMember =>
    match recipientVariables.lookup currentMember.address with
    | none => recipientVariables
    | some vars =>
      setKey currentMember.address (setKey field (currentMember.fields.lookup "field") vars)
        recipientVariables

/-- The `for` loop of line 64 from index `i`, with the loop bound already read. -/
def addRecipientVariableLoop (field : String) (members : List Member) (bound : Option Nat)
    (i : Nat) (recipientVariables : RecipientVariables) : RecipientVariables :=
  if h : jsLt i bound = true then
    addRecipientVariableLoop field members bound (i + 1)
      (addRecipientVariableStep recipientVariables field members i)
  else recipientVariables
termination_by bound.getD 0 - i
decreasing_by
  cases bound with
  | none => simp [jsLt] at h
  | some n =>
    simp only [jsLt, decide_eq_true_eq] at h
    simp only [Option.getD_some]
    omega

/-- The function `addRecipientVariable`: the loop bound is the property
`lenth` of the array `members`. -/
def addRecipientVariable (recipientVariables : RecipientVariables) (field : String)
    (members : List Member) : RecipientVariables :=
  addRecipientVariableLoop field members (arrayProp members "lenth") 0 recipientVariables

/-- The value of `recipientVariables[address][field]`; `none` is `undefined`. -/
def readVariable (recipientVariables : RecipientVariables) (address field : String) :
    Option String :=
  match recipientVariables.lookup address with
  | none => none
  | some vars => (vars.lookup field).join

/-! ## `attachFile`, `attachFiles` (mailgun.js, lines 119-154) -/

/-- The function `attachFile`.  The callback of `mv` reads `res` when the move
failed; `attachFile` has no such parameter, so that is a `ReferenceError`
inside the callback.  The read-back is issued without waiting for the move,
so `env.readFile` stands for its outcome at that moment.  A failed read-back
rejects the promise before the entry is pushed. -/
def attachFile {V : Type} (env : Env V) (uploadDir : String) (attachment : Upload)
    (w : World V) (fileAttachments : List FileAttachment) :
    Except (JSError V) Unit × World V × List FileAttachment :=
  let uploadPath := env.pathJoin uploadDir attachment.name
  let w1 :=
    match env.mv attachment uploadPath with
    | some _ => w.reject (JSError.referenceError "res is not defined")
    | none => w
  match env.readFile uploadPath with
  | .error e => (.error (JSError.thrown e), w1, fileAttachments)
  | .ok data => (.ok (), w1, fileAttachments ++ [{ filename := attachment.name, data := data }])

/-- The `for ... of` loop of lines 144-149.  Every element is an object, so the
guard of line 145 never fires.  `attachFile` is not awaited: its rejection is
unhandled.  The read-backs are taken to complete in the order they were issued. -/
def attachFilesLoop {V : Type} (env : Env V) (uploadDir : String) :
    List Upload → World V → List FileAttachment → World V × List FileAttachment
  | [], w, fileAttachments => (w, fileAttachments)
  | attachment :: rest, w, fileAttachments =>
    let r := attachFile env uploadDir attachment w fileAttachments
    let w1 :=
      match r.1 with
      | .error e => r.2.1.reject e
      | .ok _ => r.2.1
    attachFilesLoop env uploadDir rest w1 r.2.2

/-- The function `attachFiles`.  In the branch for a `req.files.file` that is
not an array, line 151 reads the variable `attachment`, which is declared
nowhere in that scope. -/
def attachFiles {V : Type} (env : Env V) (req : Request V) (w : World V)
    (fileAttachments : List FileAttachment) (uploadDir : String) :
    Except (JSError V) Unit × World V × List FileAttachment :=
  match req.files with
  | none => (.ok (), w, fileAttachments)
  | some (FileField.many fs) =>
    let r := attachFilesLoop env uploadDir fs w fileAttachments
    (.ok (), r.1, r.2)
  | some _ => (.error (JSError.referenceError "attachment is not defined"), w, fileAttachments)

/-! ## `sendMessage` (mailgun.js, lines 156-208) -/

/-- The object `emailData` of lines 164-178. -/
def emailData {V : Type} (env : Env V) (req : Request V)
    (fileAttachments : List FileAttachment) : EmailData FileAttachment :=
  let plaintext := env.convert req.body.message 130
  let data : EmailData FileAttachment :=
    { from_ := req.body.from_email, to_ := req.body.mailing_list, subject := req.body.subject,
      text := plaintext, html := req.body.message, attachment := none }
  if fileAttachments.length ≥ 0 then { data with attachment := some fileAttachments } else data

/-- The locals both `res.render` calls of `sendMessage` share, up to `msg` and `err`. -/
def messageLocals {V : Type} (req : Request V) (mailingList : MailingLists)
    (msg : String) (err : Bool) : ViewModel V :=
  { apiKey := req.body.api_key, domain := req.body.domain, req_data := req.body,
    mailing_list := mailingList.mailing_list, mailing_options := mailingList.mailing_options,
    msg := msg, err := err }

/-- The function `sendMessage`. -/
def sendMessage {V : Type} (env : Env V) (req : Request V) (w : World V)
    (fileAttachments : List FileAttachment) (mailgunClient : Client V)
    (mailingList : MailingLists) : Except (JSError V) Unit × World V :=
  let data := emailData env req fileAttachments
  let w1 := w.call (Call.messagesCreate req.body.domain data)
  match mailgunClient.messagesCreate req.body.domain data with
  | .ok _ =>
    (.ok (), w1.render "message"
      (Locals.viewModel (messageLocals req mailingList "Message successfully sent." false)))
  | .error _ =>
    (.ok (), w1.render "message"
      (Locals.viewModel (messageLocals req mailingList "Error. Something went wrong." true)))

/-! ## The routes of the router (mailgun.js, lines 221-282) -/

/-- Route `POST /list/create`: `createMailingList` is called without `await`
and nothing follows it. -/
def postListCreate {V : Type} (env : Env V) (req : Request V) (w : World V) :
    Except (JSError V) Unit × World V :=
  match createMailingList env req w with
  | (.error e, w1) => (.ok (), w1.reject e)
  | (.ok _, w1) => (.ok (), w1)

/-- Route `POST /list/add-members`.  `addMembers` is called without `await`, so
`members` is a pending promise and its spread is the empty object.  Status 201
goes out before `addMembers` resumes. -/
def postListAddMembers {V : Type} (env : Env V) (req : Request V) (w : World V) :
    Except (JSError V) Unit × World V :=
  let success : Body V := Body.obj [("status", Atom.str "Success"), ("data", Atom.emptyObj)]
  match addMembersIssue env req w with
  | (.error e, w1) => (.ok (), (w1.send 201 success).reject e)
  | (.ok client, w1) =>
    match addMembersSettle client req (w1.send 201 success) with
    | (.error e, w2) => (.ok (), w2.reject e)
    | (.ok _, w2) => (.ok (), w2)

/-- Route `DELETE /list/delete`. -/
def deleteListDelete {V : Type} (env : Env V) (req : Request V) (w : World V) :
    Except (JSError V) Unit × World V :=
  match env.initializeMailgunClient req.body.api_key with
  | .error e => (.error e, w)
  | .ok client =>
    let w1 := w.call (Call.listsDestroy req.body.mailing_list_address)
    match client.listsDestroy req.body.mailing_list_address with
    | .ok result =>
      (.ok (), w1.send 200
        (Body.obj [("status", Atom.str "Success"), ("data", Atom.provider result)]))
    | .error err =>
      (.ok (), w1.send 400
        (Body.obj [("status", Atom.str "Error"), ("error", Atom.provider err)]))

/-- Route `GET /list`. -/
def getList {V : Type} (env : Env V) (req : Request V) (w : World V) :
    Except (JSError V) Unit × World V :=
  match getMailingLists env req w with
  | (.error e, w1) => (.error e, w1)
  | (.ok result, w1) =>
    (.ok (), w1.render "message"
      (Locals.viewModel (messageLocals req result "Send Custom Message to Mailing List." false)))

/-- Route `GET /list/members`. -/
def getListMembers {V : Type} (env : Env V) (req : Request V) (w : World V) :
    Except (JSError V) Unit × World V :=
  match getMembers env req w with
  | (.error e, w1) => (.error e, w1)
  | (.ok members, w1) => (.ok (), w1.send 200 (Body.obj [("data", members)]))

/-- Route `POST /message`.  `attachFiles` is called without `await`: its
rejection is unhandled.  The call of `sendMessage` is commented out in the
source, the route answers with the members instead. -/
def postMessage {V : Type} (env : Env V) (uploadDir : String) (req : Request V) (w : World V) :
    Except (JSError V) Unit × World V :=
  match env.initializeMailgunClient req.body.api_key with
  | .error e => (.error e, w)
  | .ok _ =>
    match getMailingLists env req w with
    | (.error e, w1) => (.error e, w1)
    | (.ok _, w1) =>
      let a := attachFiles env req w1 [] uploadDir
      let w2 :=
        match a.1 with
        | .error e => a.2.1.reject e
        | .ok _ => a.2.1
      match getMembers env req w2 with
      | (.error e, w3) => (.error e, w3)
      | (.ok members, w3) => (.ok (), w3.send 200 (Body.obj [("data", members)]))

/-! ## Attachments and payload of the stand-alone server (server.js, lines 72-138) -/

/-- The callback passed to `attachment.mv` (lines 82-86 and 100-104): a failed
move is answered with status 500 and the error.  Its `return` leaves the
callback only, the handler itself has run to its end by then. -/
def mvCallback {V : Type} (err : Option V) (w : World V) : World V :=
  match err with
  | some e => w.send 500 (Body.raw e)
  | none => w

/-- The statements of lines 79-94 (and 98-112) for one uploaded file: the move
is started, the path is recorded and an attachment is built from the data the
upload holds in memory.  The move reports back through its callback only after
the handler has run to its end, so the world is passed on as it is; the
callbacks are `moveCallbacks`. -/
def stageAndAttach {V : Type} (env : Env V) (uploadDir : String) (attachment : Upload)
    (st : World V × List String × List Attachment) : World V × List String × List Attachment :=
  let uploadPath := env.pathJoin uploadDir attachment.name
  (st.1,
    st.2.1 ++ [uploadPath],
    st.2.2 ++ [{ data := attachment.data, contentType := attachment.mimetype,
                 filename := env.basename attachment.name }])

/-- The `for ... of` loop of lines 78-95. -/
def stageLoop {V : Type} (env : Env V) (uploadDir : String) :
    List Upload → World V × List String × List Attachment →
      World V × List String × List Attachment
  | [], st => st
  | attachment :: rest, st => stageLoop env uploadDir rest (stageAndAttach env uploadDir attachment st)

/-- The body of the `try` of lines 74-114.  Reading `req.files.file` raises a
`TypeError` when `req.files` is not an object. -/
def collectAttachmentsBody {V : Type} (env : Env V) (uploadDir : String) (req : Request V)
    (st : World V × List String × List Attachment) :
    Except (JSError V) Unit × World V × List String × List Attachment :=
  match req.files with
  | none => (.error (JSError.typeError "req.files has no property file"), st)
  | some FileField.absent => (.ok (), st)
  | some (FileField.many fs) => (.ok (), stageLoop env uploadDir fs st)
  | some (FileField.single attachment) => (.ok (), stageAndAttach env uploadDir attachment st)

/-- The `try ... catch` of lines 74-117 from empty `filepaths` and
`fileAttachments`: the `catch` logs the exception and goes on. -/
def collectAttachments {V : Type} (env : Env V) (uploadDir : String) (req : Request V)
    (w : World V) : Except (JSError V) Unit × World V × List String × List Attachment :=
  match collectAttachmentsBody env uploadDir req (w, [], []) with
  | (.error _, st) => (.ok (), st)
  | (.ok _, st) => (.ok (), st)

/-- The object `data` of lines 120-135. -/
def messageData {V : Type} (env : Env V) (req : Request V) (fileAttachments : List Attachment) :
    EmailData Attachment :=
  let plaintext := env.convert req.body.message 130
  let data : EmailData Attachment :=
    { from_ := req.body.from_email, to_ := req.body.mailing_list, subject := req.body.subject,
      text := plaintext, html := req.body.message, attachment := none }
  if fileAttachments.length ≥ 0 then { data with attachment := some fileAttachments } else data

/-- Lines 72-138 of `app.post('/message')`, for a request on which the client
of line 57 was constructed: the outcome of the attachment block, the object
handed to `mailgun.messages().send` and the world at that point. -/
def serverMessage {V : Type} (env : Env V) (uploadDir : String) (req : Request V)
    (w : World V) : Except (JSError V) Unit × EmailData Attachment × World V :=
  let c := collectAttachments env uploadDir req w
  (c.1, messageData env req c.2.2.2, c.2.1)

/-- The files a request uploaded under the field `file`, in upload order. -/
def uploadedFiles {V : Type} (req : Request V) : List Upload :=
  match req.files with
  | none => []
  | some FileField.absent => []
  | some (FileField.single f) => [f]
  | some (FileField.many fs) => fs

/-- The callbacks of the moves that the attachment block started, one per
uploaded file.  They are taken in the order the moves were started. -/
def moveCallbacks {V : Type} (env : Env V) (uploadDir : String) :
    List Upload → World V → World V
  | [], w => w
  | attachment :: rest, w =>
    moveCallbacks env uploadDir rest
      (mvCallback (env.mv attachment (env.pathJoin uploadDir attachment.name)) w)

/-- The world after the moves have reported back, which happens once the
handler has issued the send call of line 138. -/
def serverMessageStaged {V : Type} (env : Env V) (uploadDir : String) (req : Request V)
    (w : World V) : World V :=
  moveCallbacks env uploadDir (uploadedFiles req) (serverMessage env uploadDir req w).2.2

/-! ## Sample collaborators -/

/-- A provider client whose every call succeeds; it lists two mailing lists. -/
def okClient : Client String :=
  { listsCreate := fun _ => .ok "created"
    listsList := .ok { items := some [⟨"News", "news@x.com"⟩, ⟨"Dev", "dev@x.com"⟩],
                       message := none }
    listMembers := fun _ => .ok "members"
    createMembers := fun _ _ => .ok "members"
    listsDestroy := fun _ => .ok "deleted"
    messagesCreate := fun _ _ => .ok "queued" }

/-- A provider client whose every call is rejected with the payload `Forbidden`. -/
def failingClient : Client String :=
  { listsCreate := fun _ => .error "Forbidden"
    listsList := .error "Forbidden"
    listMembers := fun _ => .error "Forbidden"
    createMembers := fun _ _ => .error "Forbidden"
    listsDestroy := fun _ => .error "Forbidden"
    messagesCreate := fun _ _ => .error "Forbidden" }

/-- A provider client whose list response has a `message` and no `items`. -/
def noItemsClient : Client String :=
  { okClient with listsList := .ok { items := none, message := some "Invalid private key" } }

/-- A provider client whose list response has an empty `items` array. -/
def emptyItemsClient : Client String :=
  { okClient with listsList := .ok { items := some [], message := none } }

/-- Collaborators around a given client: the file `b.pdf` can be neither moved
nor read back, every other file can. -/
def sampleEnv (client : Client String) : Env String :=
  { initializeMailgunClient := fun _ => .ok client
    convert := fun html _ => "text of " ++ html
    pathJoin := fun dir file => dir ++ "/" ++ file
    basename := fun file => file
    mv := fun attachment _ => if attachment.name = "b.pdf" then some "EACCES" else none
    readFile := fun path => if path = "uploads/b.pdf" then .error "ENOENT" else .ok [104, 105] }

/-- The form of the example of the specification, for the list `list@x.com`. -/
def sampleBody : ReqBody String :=
  { api_key := "key-1", apiKey := "key-1", domain := "x.com", name := "news",
    description := "Newsletter", accessLevel := "readonly", address := "list@x.com",
    members := "[ann@x.com]", mailing_list := "list@x.com",
    mailing_list_address := "list@x.com", from_email := "a@x.com", subject := "Hi",
    message := "<p>Hello</p>" }

/-- An upload that stages without error. -/
def fileA : Upload := { name := "a.txt", data := [104, 105], mimetype := "text/plain" }

/-- An upload whose staging fails under `sampleEnv`. -/
def fileB : Upload := { name := "b.pdf", data := [37, 80], mimetype := "application/pdf" }

/-- A request without uploads. -/
def plainRequest : Request String := { body := sampleBody, files := none }

/-- A request with the single upload `fileA`. -/
def singleRequest : Request String := { body := sampleBody, files := some (FileField.single fileA) }

/-- A request with the two uploads `fileA` and `fileB`. -/
def twoFilesRequest : Request String :=
  { body := sampleBody, files := some (FileField.many [fileA, fileB]) }

/-! ## Lemmas on the loops -/

theorem foldl_append_eq (l : List String) (acc : String) :
    l.foldl (fun r s => r ++ s) acc = acc ++ String.join l := by
  induction l generalizing acc with
  | nil => simp [String.join]
  | cons a l ih =>
    have h : String.join (a :: l) = a ++ String.join l := by
      show l.foldl (fun r s => r ++ s) ("" ++ a) = a ++ String.join l
      rw [ih, String.empty_append]
    rw [List.foldl_cons, ih, h, String.append_assoc]

theorem join_cons (a : String) (l : List String) : String.join (a :: l) = a ++ String.join l := by
  show l.foldl (fun r s => r ++ s) ("" ++ a) = a ++ String.join l
  rw [foldl_append_eq, String.empty_append]

theorem mailingListLoop_eq (items : List ListItem) (mailingList : List Entry)
    (mailingOptions : String) :
    mailingListLoop items mailingList mailingOptions =
      (mailingList ++ items.map (fun item => { name := item.name, email := item.address }),
        mailingOptions ++ String.join (items.map optionMarkup)) := by
  induction items generalizing mailingList mailingOptions with
  | nil => simp [mailingListLoop, String.join]
  | cons item rest ih =>
    simp only [mailingListLoop, ih, List.map_cons, join_cons, List.append_assoc,
      List.singleton_append, String.append_assoc]

/-! ## Listing the mailing lists -/

/-- C1: when the provider list response has an `items` array of N items,
`getMailingLists` returns a `mailing_list` of exactly N entries, the i-th being
the name and the address of the i-th item, and a `mailing_options` string that
is the concatenation, in the same order, of the N option fragments built from
the item addresses; it sends nothing. -/
theorem getMailingLists_entries {V : Type} (env : Env V) (req : Request V) (w : World V)
    (client : Client V) (list : ListResponse) (items : List ListItem)
    (hclient : env.initializeMailgunClient req.body.api_key = .ok client)
    (hlist : client.listsList = .ok list) (hitems : list.items = some items) :
    ∃ r : MailingLists,
      (getMailingLists env req w).1 = .ok r ∧
      (getMailingLists env req w).2.responses = w.responses ∧
      r.mailing_list.length = items.length ∧
      r.mailing_list = items.map (fun item => { name := item.name, email := item.address }) ∧
      (∀ i (h : i < items.length),
        r.mailing_list[i]? =
          some { name := (items.get ⟨i, h⟩).name, email := (items.get ⟨i, h⟩).address }) ∧
      (items.map (fun item =>
        "<option value=\"" ++ item.address ++ "\">" ++ item.address ++ "</option>")).length
          = items.length ∧
      r.mailing_options =
        String.join (items.map (fun item =>
          "<option value=\"" ++ item.address ++ "\">" ++ item.address ++ "</option>")) := by
  refine ⟨⟨items.map (fun item => { name := item.name, email := item.address }),
    String.join (items.map optionMarkup)⟩, ?_, ?_, ?_, rfl, ?_, ?_, rfl⟩
  · simp [getMailingLists, hclient, hlist, hitems, mailingListLoop_eq]
  · simp [getMailingLists, hclient, hlist, hitems, World.call]
  · simp
  · intro i h
    simp [List.getElem?_eq_getElem h]
  · simp

/-- Witness of C1: the two lists of `okClient`. -/
theorem getMailingLists_entries_witness :
    ∃ r : MailingLists,
      (getMailingLists (sampleEnv okClient) plainRequest World.empty).1 = .ok r ∧
      r.mailing_list = [⟨"News", "news@x.com"⟩, ⟨"Dev", "dev@x.com"⟩] ∧
      r.mailing_options =
        "<option value=\"news@x.com\">news@x.com</option>" ++
          "<option value=\"dev@x.com\">dev@x.com</option>" := by
  obtain ⟨r, h1, _, _, h4, _, _, h7⟩ :=
    getMailingLists_entries (sampleEnv okClient) plainRequest World.empty okClient
      { items := some [⟨"News", "news@x.com"⟩, ⟨"Dev", "dev@x.com"⟩], message := none }
      [⟨"News", "news@x.com"⟩, ⟨"Dev", "dev@x.com"⟩] rfl rfl rfl
  refine ⟨r, h1, h4, ?_⟩
  rw [h7]
  decide

/-- C2, evaluated at a list response without `items`: `getMailingLists` renders
the `mailgun` view with the response message and then raises a `TypeError`; it
returns no `mailing_list` and no `mailing_options`.  An empty `items` array, in
contrast, yields the empty list and the empty string. -/
theorem getMailingLists_without_items :
    getMailingLists (sampleEnv noItemsClient) plainRequest World.empty =
        (.error (JSError.typeError "list.items is not iterable"),
          { responses := [Response.render "mailgun" (Locals.errorOnly (some "Invalid private key"))],
            calls := [Call.listsList], unhandled := [] }) ∧
      getMailingLists (sampleEnv emptyItemsClient) plainRequest World.empty =
        (.ok { mailing_list := [], mailing_options := "" },
          { responses := [], calls := [Call.listsList], unhandled := [] }) := by
  constructor <;> rfl

/-! ## Sending a message -/

/-- C3: `sendMessage` raises nothing and renders the `message` view exactly
once; the view model says `Message successfully sent.` with `err = false`
exactly when the provider send call succeeds and `Error. Something went wrong.`
with `err = true` exactly when it fails; the API key, the domain, the request
body and the resolved mailing list are echoed unchanged. -/
theorem sendMessage_renders_once {V : Type} (env : Env V) (req : Request V) (w : World V)
    (fileAttachments : List FileAttachment) (mailgunClient : Client V)
    (mailingList : MailingLists) :
    (sendMessage env req w fileAttachments mailgunClient mailingList).1 = .ok () ∧
    ∃ vm : ViewModel V,
      (sendMessage env req w fileAttachments mailgunClient mailingList).2.responses =
        w.responses ++ [Response.render "message" (Locals.viewModel vm)] ∧
      ((vm.msg = "Message successfully sent." ∧ vm.err = false) ↔
        ∃ result, mailgunClient.messagesCreate req.body.domain
          (emailData env req fileAttachments) = .ok result) ∧
      ((vm.msg = "Error. Something went wrong." ∧ vm.err = true) ↔
        ∃ e, mailgunClient.messagesCreate req.body.domain
          (emailData env req fileAttachments) = .error e) ∧
      vm.apiKey = req.body.api_key ∧ vm.domain = req.body.domain ∧ vm.req_data = req.body ∧
      vm.mailing_list = mailingList.mailing_list ∧
      vm.mailing_options = mailingList.mailing_options := by
  cases hsend : mailgunClient.messagesCreate req.body.domain (emailData env req fileAttachments) with
  | ok result =>
    refine ⟨by simp [sendMessage, hsend], messageLocals req mailingList "Message successfully sent." false, ?_⟩
    simp [sendMessage, hsend, World.render, World.call, messageLocals]
  | error e =>
    refine ⟨by simp [sendMessage, hsend], messageLocals req mailingList "Error. Something went wrong." true, ?_⟩
    simp [sendMessage, hsend, World.render, World.call, messageLocals]

/-- C4: the one payload `sendMessage` hands to the provider send call has
`text = convert(req.body.message, wordwrap 130)`, `html = req.body.message` and
`from`, `to`, `subject` taken from `from_email`, `mailing_list`, `subject` of
the body, so its `text` is the conversion of its own `html`; the object the
stand-alone server hands to its send call is built the same way. -/
theorem sendMessage_payload {V : Type} (env : Env V) (req : Request V) (w : World V)
    (fileAttachments : List FileAttachment) (mailgunClient : Client V)
    (mailingList : MailingLists) (uploadDir : String) :
    (∃ data : EmailData FileAttachment,
      (sendMessage env req w fileAttachments mailgunClient mailingList).2.calls =
        w.calls ++ [Call.messagesCreate req.body.domain data] ∧
      data.text = env.convert req.body.message 130 ∧
      data.html = req.body.message ∧
      data.from_ = req.body.from_email ∧
      data.to_ = req.body.mailing_list ∧
      data.subject = req.body.subject ∧
      data.text = env.convert data.html 130) ∧
    (serverMessage env uploadDir req w).2.1.text = env.convert req.body.message 130 ∧
    (serverMessage env uploadDir req w).2.1.html = req.body.message ∧
    (serverMessage env uploadDir req w).2.1.text =
      env.convert (serverMessage env uploadDir req w).2.1.html 130 := by
  refine ⟨⟨emailData env req fileAttachments, ?_, ?_⟩, ?_⟩
  · cases hsend : mailgunClient.messagesCreate req.body.domain
        (emailData env req fileAttachments) <;>
      simp [sendMessage, hsend, World.render, World.call]
  · simp [emailData]
  · simp [serverMessage, messageData]

/-! ## Attachments -/

theorem stageLoop_attachments {V : Type} (env : Env V) (uploadDir : String) (fs : List Upload)
    (st : World V × List String × List Attachment) :
    (stageLoop env uploadDir fs st).2.2 =
      st.2.2 ++ fs.map (fun f : Upload =>
        ({ data := f.data, contentType := f.mimetype, filename := env.basename f.name } :
          Attachment)) := by
  induction fs generalizing st with
  | nil => simp [stageLoop]
  | cons f rest ih => simp [stageLoop, ih, stageAndAttach]

/-- The attachment block of the stand-alone server never raises and yields one
entry per uploaded file, in upload order, for each shape of `req.files`. -/
theorem collectAttachments_entries {V : Type} (env : Env V) (uploadDir : String)
    (req : Request V) (w : World V) :
    (collectAttachments env uploadDir req w).1 = .ok () ∧
    (collectAttachments env uploadDir req w).2.2.2 =
      (uploadedFiles req).map (fun f : Upload =>
        ({ data := f.data, contentType := f.mimetype, filename := env.basename f.name } :
          Attachment)) := by
  unfold collectAttachments collectAttachmentsBody uploadedFiles
  cases hf : req.files with
  | none => simp
  | some files =>
    cases files with
    | absent => simp
    | single f => simp [stageAndAttach]
    | many fs => simp [stageLoop_attachments]

/-- For every request the attachment block of the stand-alone server raises
nothing, and the attachment list handed to the send call has one entry per
uploaded file, whatever the outcome of the moves. -/
theorem serverMessage_attachments {V : Type} (env : Env V) (uploadDir : String)
    (req : Request V) (w : World V) :
    (serverMessage env uploadDir req w).1 = .ok () ∧
    (serverMessage env uploadDir req w).2.1.attachment =
      some ((uploadedFiles req).map (fun f : Upload =>
        ({ data := f.data, contentType := f.mimetype, filename := env.basename f.name } :
          Attachment))) := by
  have h := collectAttachments_entries env uploadDir req w
  refine ⟨h.1, ?_⟩
  simp [serverMessage, messageData, h.2]

/-- C5, evaluated at the uploads `a.txt` and `b.pdf`, of which `a.txt` is moved
and `b.pdf` fails to be moved: the attachment list the stand-alone server hands
to the send call is not the single attachment `a.txt`, it holds both uploads;
nothing has been answered when the message is handed over, and the status 500
of the failed move follows only afterwards. -/
theorem serverMessage_keeps_unstaged_upload :
    (sampleEnv okClient).mv fileA ((sampleEnv okClient).pathJoin "uploads" fileA.name) = none ∧
    (sampleEnv okClient).mv fileB ((sampleEnv okClient).pathJoin "uploads" fileB.name)
      = some "EACCES" ∧
    ¬ ((serverMessage (sampleEnv okClient) "uploads" twoFilesRequest World.empty).2.1.attachment
        = some [{ data := fileA.data, contentType := fileA.mimetype, filename := fileA.name }]) ∧
    (serverMessage (sampleEnv okClient) "uploads" twoFilesRequest World.empty).2.1.attachment
      = some [{ data := [104, 105], contentType := "text/plain", filename := "a.txt" },
              { data := [37, 80], contentType := "application/pdf", filename := "b.pdf" }] ∧
    (serverMessage (sampleEnv okClient) "uploads" twoFilesRequest World.empty).2.2.responses
      = [] ∧
    (serverMessageStaged (sampleEnv okClient) "uploads" twoFilesRequest World.empty).responses
      = [Response.send 500 (Body.raw "EACCES")] := by
  refine ⟨rfl, rfl, ?_, rfl, rfl, rfl⟩
  decide

/-- C9, evaluated at a request with one uploaded file: `attachFiles` of the
router raises a `ReferenceError` and attaches nothing, while the attachment
block of the stand-alone server attaches the file. -/
theorem attachFiles_single_upload :
    attachFiles (sampleEnv okClient) singleRequest World.empty [] "uploads" =
        (.error (JSError.referenceError "attachment is not defined"), World.empty, []) ∧
      (collectAttachments (sampleEnv okClient) "uploads" singleRequest World.empty).2.2.2 =
        [{ data := [104, 105], contentType := "text/plain", filename := "a.txt" }] := by
  constructor <;> rfl

/-- The router on two uploads of which `b.pdf` can be neither moved nor read
back: only `a.txt` is attached, and both failures reach no handler. -/
theorem attachFiles_two_uploads :
    attachFiles (sampleEnv okClient) twoFilesRequest World.empty [] "uploads" =
      (.ok (),
        { responses := [], calls := [],
          unhandled := [JSError.referenceError "res is not defined", JSError.thrown "ENOENT"] },
        [{ filename := "a.txt", data := [104, 105] }]) := by
  rfl

/-! ## The routes -/

/-- C6: once the client is built, a provider error `e` of `lists.destroy` makes
`DELETE /list/delete` respond exactly once, with status 400 and the `Error`
envelope holding `e` unchanged, and with no `Success` envelope; a result `r`
makes it respond exactly once with status 200 and the `Success` envelope
holding `r`. -/
theorem deleteListDelete_envelopes {V : Type} (env : Env V) (req : Request V) (w : World V)
    (client : Client V)
    (hclient : env.initializeMailgunClient req.body.api_key = .ok client) :
    (∀ e, client.listsDestroy req.body.mailing_list_address = .error e →
      (deleteListDelete env req w).1 = .ok () ∧
      (deleteListDelete env req w).2.responses =
        w.responses ++
          [Response.send 400 (Body.obj [("status", Atom.str "Error"), ("error", Atom.provider e)])] ∧
      ∀ status data,
        Response.send status (Body.obj [("status", Atom.str "Success"), ("data", data)]) ∉
          (deleteListDelete env req w).2.responses.drop w.responses.length) ∧
    (∀ r, client.listsDestroy req.body.mailing_list_address = .ok r →
      (deleteListDelete env req w).1 = .ok () ∧
      (deleteListDelete env req w).2.responses =
        w.responses ++
          [Response.send 200
            (Body.obj [("status", Atom.str "Success"), ("data", Atom.provider r)])]) := by
  constructor
  · intro e he
    simp [deleteListDelete, hclient, he, World.send, World.call]
  · intro r hr
    simp [deleteListDelete, hclient, hr, World.send, World.call]

/-- Witness of C6: the rejecting client and the accepting client. -/
theorem deleteListDelete_envelopes_witness :
    (deleteListDelete (sampleEnv failingClient) plainRequest World.empty).2.responses =
      [Response.send 400
        (Body.obj [("status", Atom.str "Error"), ("error", Atom.provider "Forbidden")])] ∧
    (deleteListDelete (sampleEnv okClient) plainRequest World.empty).2.responses =
      [Response.send 200
        (Body.obj [("status", Atom.str "Success"), ("data", Atom.provider "deleted")])] :=
  ⟨((deleteListDelete_envelopes (sampleEnv failingClient) plainRequest World.empty failingClient
      rfl).1 "Forbidden" rfl).2.1,
    ((deleteListDelete_envelopes (sampleEnv okClient) plainRequest World.empty okClient
      rfl).2 "deleted" rfl).2⟩

/-- C7, evaluated at a rejected `createMembers`: `POST /list/add-members` first
sends status 201 with a `Success` envelope whose data is the empty object, which
is what the client receives, and the `Error` envelope follows as a second
response; when `createMembers` succeeds the `Success` envelope still carries
the empty object and not the members.  The provider is called with
`upsert = "yes"`. -/
theorem postListAddMembers_success_first :
    postListAddMembers (sampleEnv failingClient) plainRequest World.empty =
        (.ok (),
          { responses :=
              [Response.send 201
                (Body.obj [("status", Atom.str "Success"), ("data", Atom.emptyObj)]),
               Response.send 400
                (Body.obj [("status", Atom.str "Error"), ("error", Atom.provider "Forbidden")])],
            calls := [Call.createMembers "list@x.com" { members := "[ann@x.com]", upsert := "yes" }],
            unhandled := [] }) ∧
      (postListAddMembers (sampleEnv failingClient) plainRequest World.empty).2.delivered =
        some (Response.send 201
          (Body.obj [("status", Atom.str "Success"), ("data", Atom.emptyObj)])) ∧
      (postListAddMembers (sampleEnv okClient) plainRequest World.empty).2.responses =
        [Response.send 201
          (Body.obj [("status", Atom.str "Success"), ("data", Atom.emptyObj)])] := by
  refine ⟨rfl, rfl, rfl⟩

/-- C8, evaluated at a provider that rejects every call: `GET /list/members`
sends two responses, the 400 error and then status 200 with `data` undefined;
`GET /list` and `POST /message` send the 400 error, render the `mailgun` view
and then raise a `TypeError`. -/
theorem routes_on_rejection :
    getListMembers (sampleEnv failingClient) plainRequest World.empty =
        (.ok (),
          { responses :=
              [Response.send 400 (Body.obj [("error", Atom.provider "Forbidden")]),
               Response.send 200 (Body.obj [("data", Atom.undefined)])],
            calls := [Call.listMembers "list@x.com"], unhandled := [] }) ∧
      getList (sampleEnv failingClient) plainRequest World.empty =
        (.error (JSError.typeError "list.items is not iterable"),
          { responses :=
              [Response.send 400 (Body.obj [("error", Atom.provider "Forbidden")]),
               Response.render "mailgun" (Locals.errorOnly none)],
            calls := [Call.listsList], unhandled := [] }) ∧
      postMessage (sampleEnv failingClient) "uploads" plainRequest World.empty =
        (.error (JSError.typeError "list.items is not iterable"),
          { responses :=
              [Response.send 400 (Body.obj [("error", Atom.provider "Forbidden")]),
               Response.render "mailgun" (Locals.errorOnly none)],
            calls := [Call.listsList], unhandled := [] }) := by
  refine ⟨rfl, rfl, rfl⟩

/-! ## Recipient variables -/

/-- The loop of `addRecipientVariable` never runs: the bound `members.lenth` is
`undefined`, so the object comes back as it went in. -/
theorem addRecipientVariable_unchanged (recipientVariables : RecipientVariables)
    (field : String) (members : List Member) :
    addRecipientVariable recipientVariables field members = recipientVariables := by
  unfold addRecipientVariable
  have hbound : arrayProp members "lenth" = none := by
    unfold arrayProp
    rw [if_neg (by decide)]
  rw [hbound, addRecipientVariableLoop]
  simp [jsLt]

/-- C10, evaluated at a member `a@x.com` that has the field `name` and is a key
of `recipientVariables`: after `addRecipientVariable` the object is unchanged
and `recipientVariables["a@x.com"]["name"]` is still `undefined`, not `Ann`. -/
theorem addRecipientVariable_sets_nothing :
    addRecipientVariable [("a@x.com", [])] "name" [⟨"a@x.com", [("name", "Ann")]⟩] =
        [("a@x.com", [])] ∧
      readVariable
        (addRecipientVariable [("a@x.com", [])] "name" [⟨"a@x.com", [("name", "Ann")]⟩])
        "a@x.com" "name" = none := by
  rw [addRecipientVariable_unchanged]
  exact ⟨rfl, rfl⟩

end Mailgun
